import Mathlib

/-!
Verification of the sql-rag-system repository (kuongan/sql-rag-system).

The repository snapshot contains the Next.js/TypeScript frontend: the API
service layer (`services/api.ts`), the Next.js proxy route
(`app/api/agents/query/route.ts`), the chat page state handlers
(`MainChat`), the chat UI components (`ChatInterface.tsx`) and the shared
types (`types/api.ts`).  Those parts are embedded below directly from the
source.  The Python backend (the ReAct orchestration engine described in
the design document) is not part of the snapshot; the Decision Engine and
Capability Dispatcher are therefore modelled from the design document and
are marked as such in their doc comments.
-/

/-- JSON-like values, as produced and consumed by the TypeScript code.
Numbers are modelled as integers; no arithmetic on JSON numbers occurs in
the embedded code. -/
inductive Json where
  | null : Json
  | bool : Bool → Json
  | num : Int → Json
  | str : String → Json
  | arr : List Json → Json
  | obj : List (String × Json) → Json

/-- First-match lookup of a key in a JavaScript object literal, given as an
association list. -/
def lookupField : List (String × Json) → String → Option Json
  | [], _ => none
  | (k, v) :: rest, key => if k = key then some v else lookupField rest key

/-- Property access `o[key]` on a JSON value: `none` models JavaScript
`undefined` (missing property or non-object receiver). -/
def Json.getField : Json → String → Option Json
  | Json.obj fields, key => lookupField fields key
  | _, _ => none

/-- JavaScript truthiness of a value: `null`, `false`, `0` and the empty
string are falsy; every array and object is truthy. -/
def truthy : Json → Bool
  | Json.null => false
  | Json.bool b => b
  | Json.num n => decide (n ≠ 0)
  | Json.str s => decide (s ≠ "")
  | Json.arr _ => true
  | Json.obj _ => true

/-- The `QueryRequest` interface (frontend/src/types/api.ts lines 65-70):
`query` is required, the rest are optional.  `none` models an absent (or
`undefined`) field. -/
structure QueryRequest where
  query : String
  conversation_id : Option String
  user_id : Option String
  context : Option Json

/-- The `AgentAction` interface (frontend/src/types/api.ts lines 10-16). -/
structure AgentAction where
  tool_name : String
  args : List (String × Json)
  success : Option Bool
  iteration : Option Int
  result : Option Json

/-- The `response` object inside `OrchestratorResponse`
(frontend/src/types/api.ts lines 37-48). -/
structure OrchestratorInner where
  final_answer : String
  thought : Option String
  actions_taken : List AgentAction
  agents_used : List String
  data : Option Json
  visualization : Option Json

/-- The `OrchestratorResponse` interface (frontend/src/types/api.ts lines
33-52): `success`, `response.final_answer`, `response.actions_taken` and
`conversation_id` are required fields. -/
structure OrchestratorResponse where
  success : Bool
  query : String
  intent : Option String
  response : OrchestratorInner
  conversation_history : Option (List Json)
  conversation_id : String
  user_id : String

/-- JavaScript `x || dflt` applied to an optional string: an absent or
empty (falsy) string falls back to the default. -/
def orDefault (x : Option String) (dflt : String) : String :=
  match x with
  | none => dflt
  | some s => if s = "" then dflt else s

/-- The request body serialized by `OrchestratorService.query`
(services/api.ts lines 84-89): `query` is passed through,
`conversation_id` and `user_id` are defaulted through `||`, and
`...request.context && \x7b context \x7d` spreads a `context` field only
when the supplied value is truthy. -/
def queryBody (r : QueryRequest) : List (String × Json) :=
  [("query", Json.str r.query),
   ("conversation_id", Json.str (orDefault r.conversation_id "default")),
   ("user_id", Json.str (orDefault r.user_id "anonymous"))] ++
  (match r.context with
   | some c => if truthy c then [("context", c)] else []
   | none => [])

/-- The four components of the facade entry contract carried by every
`OrchestratorResponse`: success flag, final answer, ordered action list,
conversation identifier. -/
def facadeResult (o : OrchestratorResponse) :
    Bool × String × List AgentAction × String :=
  (o.success, o.response.final_answer, o.response.actions_taken,
   o.conversation_id)

/-- The `ApiError` class (services/api.ts lines 8-17): message plus
optional HTTP status and optional parsed response body.  The message is
kept as a JSON value because `data.message` has type `any`. -/
structure ApiError where
  message : Json
  status : Option Nat
  response : Option Json

/-- Outcome of the `fetch`/`response.json()` pair inside `apiRequest`: the
server replied and its body parsed, or `fetch` itself threw, or
`response.json()` threw.  A thrown value that is not an `Error` carries no
message (`none`). -/
inductive FetchOutcome where
  | replied (ok : Bool) (status : Nat) (body : Json)
  | fetchThrew (msg : Option String)
  | jsonThrew (msg : Option String)

/-- The message chosen for the non-ok branch of `apiRequest`
(services/api.ts line 55): `data.message || "HTTP error! status: ..."`,
so a missing or falsy `message` field falls back to the generic text. -/
def httpErrorMessage (status : Nat) (body : Json) : Json :=
  match Json.getField body "message" with
  | some m =>
      if truthy m then m
      else Json.str ("HTTP error! status: " ++ toString status)
  | none => Json.str ("HTTP error! status: " ++ toString status)

/-- What the try-block of `apiRequest` produces before the catch clause:
data, a thrown `ApiError` (non-ok response), or some other thrown value
(network or JSON-parse failure). -/
inductive TryResult where
  | ok (data : Json)
  | threwApiError (e : ApiError)
  | threwOther (msg : Option String)

/-- The try-block of `apiRequest` (services/api.ts lines 49-61). -/
def apiRequestTry : FetchOutcome → TryResult
  | FetchOutcome.replied ok status body =>
      if ok then TryResult.ok body
      else TryResult.threwApiError
        ⟨httpErrorMessage status body, some status, some body⟩
  | FetchOutcome.fetchThrew m => TryResult.threwOther m
  | FetchOutcome.jsonThrew m => TryResult.threwOther m

/-- `apiRequest` (services/api.ts lines 35-72): the try-block plus the
catch clause, which rethrows an `ApiError` unchanged and wraps any other
thrown value into an `ApiError` built from its message (or the literal
"Unknown error occurred" when the thrown value has none). -/
def apiRequest (o : FetchOutcome) : Except ApiError Json :=
  match apiRequestTry o with
  | TryResult.ok d => Except.ok d
  | TryResult.threwApiError e => Except.error e
  | TryResult.threwOther m =>
      Except.error ⟨Json.str (m.getD "Unknown error occurred"), none, none⟩

/-- Outcome of the proxied backend call made by the `POST` route handler
(app/api/agents/query/route.ts): the backend replied (with a body that
parsed), the backend replied but `response.json()` rejected, or
`request.json()` / `fetch` threw. -/
inductive RouteOutcome where
  | replied (ok : Bool) (status : Nat) (body : Json)
  | repliedBadJson (ok : Bool) (status : Nat) (parseMsg : String)
  | threw (msg : Option String)

/-- The error text of the route's non-ok branch (route.ts line 23):
`errorData.error || "Backend error: ..."`. -/
def routeErrorField (body : Json) (status : Nat) : Json :=
  match Json.getField body "error" with
  | some e =>
      if truthy e then e
      else Json.str ("Backend error: " ++ toString status)
  | none => Json.str ("Backend error: " ++ toString status)

/-- The body the route returns for a non-ok backend reply (route.ts lines
20-27): success flag, error text and backend status, nothing else. -/
def routeFailureBody (status : Nat) (e : Json) : Json :=
  Json.obj [("success", Json.bool false), ("error", e),
            ("status", Json.num (Int.ofNat status))]

/-- The body the route's catch clause returns (route.ts lines 36-43):
success flag, error text and a timestamp, nothing else. -/
def routeCatchBody (msg : String) (ts : String) : Json :=
  Json.obj [("success", Json.bool false), ("error", Json.str msg),
            ("timestamp", Json.str ts)]

/-- The `POST` handler of app/api/agents/query/route.ts as a function from
the backend-call outcome to the HTTP status and body it responds with.
`ts` is the timestamp string `new Date().toISOString()` of the catch
clause.  On an ok reply the parsed backend body is forwarded unchanged;
on a non-ok reply a fresh error body is built (with
`\x7b error: "Unknown error" \x7d` standing in when the backend body did
not parse); a `response.json()` rejection on an ok reply escapes to the
outer catch clause. -/
def routePOST (o : RouteOutcome) (ts : String) : Nat × Json :=
  match o with
  | RouteOutcome.replied true _ body => (200, body)
  | RouteOutcome.replied false status body =>
      (status, routeFailureBody status (routeErrorField body status))
  | RouteOutcome.repliedBadJson true _ parseMsg =>
      (500, routeCatchBody parseMsg ts)
  | RouteOutcome.repliedBadJson false status _ =>
      (status, routeFailureBody status (Json.str "Unknown error"))
  | RouteOutcome.threw m =>
      (500, routeCatchBody (m.getD "Internal server error") ts)

/-- A chat message as held in the `messages` state of `MainChat`
(lib/types' ChatMessage as used in the page component): role, content,
timestamp and, for assistant messages produced from a successful query,
the attached orchestrator response. -/
structure ChatMessage where
  id : String
  role : String
  content : String
  timestamp : Nat
  response : Option OrchestratorResponse

/-- The Vietnamese fallback answer used when `final_answer` is falsy
(MainChat, handleSendMessage). -/
def viFallbackAnswer : String := "Tôi gặp sự cố khi xử lý yêu cầu của bạn."

/-- The Vietnamese message for a non-ApiError failure (MainChat,
handleSendMessage catch clause). -/
def viUnknownError : String := "Đã xảy ra lỗi không xác định. Vui lòng thử lại."

/-- The user message appended at the start of handleSendMessage. -/
def mkUserMessage (content : String) (now : Nat) : ChatMessage :=
  ⟨"user_" ++ toString now, "user", content, now, none⟩

/-- The assistant message built from a successful orchestrator response:
`response.response?.final_answer || viFallbackAnswer`. -/
def mkAssistantMessage (r : OrchestratorResponse) (now : Nat) : ChatMessage :=
  ⟨"assistant_" ++ toString now, "assistant",
   (if r.response.final_answer = "" then viFallbackAnswer
    else r.response.final_answer),
   now, some r⟩

/-- The error message built in the catch clause: `parseErrorMessage` (a
utility outside the snapshot, taken as an abstract function) applied to
the ApiError message, or the fixed Vietnamese text for any other thrown
value. -/
def mkErrorMessage (parseErr : String → String) (apiMsg : Option String)
    (now : Nat) : ChatMessage :=
  ⟨"error_" ++ toString now, "assistant",
   (match apiMsg with
    | some m => parseErr m
    | none => viUnknownError),
   now, none⟩

/-- How one handleSendMessage call ends: a parsed `OrchestratorResponse`,
or a throw (`some m` = an ApiError with message `m`, `none` = any other
thrown value). -/
inductive SendOutcome where
  | success (r : OrchestratorResponse)
  | failure (apiMsg : Option String)

/-- The successive values taken by the `messages` state during one
`handleSendMessage` call (MainChat lines 21-84): the initial list, the
list after the user-message append, and the final list after the
assistant (success path, built from the captured `messages` closure) or
error message (catch path, appended to the previous state) is added. -/
def handleSendMessage (parseErr : String → String) (msgs : List ChatMessage)
    (content : String) (outcome : SendOutcome) (now : Nat) :
    List (List ChatMessage) :=
  let u := mkUserMessage content now
  match outcome with
  | SendOutcome.success r =>
      [msgs, msgs ++ [u], msgs ++ [u, mkAssistantMessage r now]]
  | SendOutcome.failure apiMsg =>
      [msgs, msgs ++ [u], (msgs ++ [u]) ++ [mkErrorMessage parseErr apiMsg now]]

/-- A sidebar conversation record (lib/types' Conversation as built in
MainChat lines 58-67). -/
structure Conversation where
  id : String
  title : String
  messages : List ChatMessage
  lastUpdated : String
  agent : String

/-- The client state relevant to the conversation lifecycle: the displayed
message list, the current conversation id and the conversation records
map (`none` = no record under that id). -/
structure AppState where
  messages : List ChatMessage
  currentConversationId : String
  conversations : String → Option Conversation

/-- The sidebar title derived from the message content (MainChat lines
54-56): contents longer than 50 characters are cut and suffixed. -/
def conversationTitle (content : String) : String :=
  if content.length > 50 then content.take 50 ++ "..." else content

/-- The state after a send that completed successfully (MainChat lines
30-67): the user and assistant messages are appended and the record under
the current conversation id is created or overwritten with the updated
message list.  `ts` is `new Date().toISOString()`. -/
def sendSuccessState (s : AppState) (content : String)
    (r : OrchestratorResponse) (now : Nat) (ts : String) : AppState :=
  let updated := s.messages ++ [mkUserMessage content now, mkAssistantMessage r now]
  ⟨updated, s.currentConversationId,
   fun k =>
     if k = s.currentConversationId then
       some ⟨s.currentConversationId, conversationTitle content, updated, ts,
             "orchestrator"⟩
     else s.conversations k⟩

/-- The state after a send that threw (MainChat lines 69-80): the user and
error messages are appended; the conversation records are untouched. -/
def sendFailureState (parseErr : String → String) (s : AppState)
    (content : String) (apiMsg : Option String) (now : Nat) : AppState :=
  ⟨(s.messages ++ [mkUserMessage content now]) ++
     [mkErrorMessage parseErr apiMsg now],
   s.currentConversationId, s.conversations⟩

/-- `handleSelectConversation` (MainChat lines 92-98): selecting an id
with a record switches to it; selecting an id with no record does
nothing. -/
def handleSelectConversation (s : AppState) (id : String) : AppState :=
  match s.conversations id with
  | some conv => ⟨conv.messages, id, s.conversations⟩
  | none => s

/-- `handleNewConversation` (MainChat lines 86-90): a fresh id becomes
current and the displayed list is cleared; the records are untouched. -/
def handleNewConversation (s : AppState) (newId : String) : AppState :=
  ⟨[], newId, s.conversations⟩

/-- The `ChatInput` submit guard (ChatInterface.tsx lines 352-358): the
message is sent exactly when its trimmed text is non-empty and no query
is loading; the sent text is the trimmed message. -/
def chatInputSubmit (message : String) (isLoading : Bool) : Option String :=
  if message.trim ≠ "" ∧ isLoading = false then some message.trim else none

/-- An event of the chat UI: a form submission, or the completion of
`handleSendMessage` (its `finally` block clearing the loading flag after
the response or error message has been recorded). -/
inductive UiEvent where
  | submit (message : String)
  | complete

/-- One UI step over the loading flag.  The second component records
whether this step started a query while another was already in flight. -/
def uiStep (loading : Bool) (e : UiEvent) : Bool × Bool :=
  match e with
  | UiEvent.submit m =>
      if (chatInputSubmit m loading).isSome then (true, loading)
      else (loading, false)
  | UiEvent.complete => (false, false)

/-- Run a list of UI events; the second component counts the queries that
were started while another query was still in flight. -/
def uiRun : Bool → List UiEvent → Bool × Nat
  | b, [] => (b, 0)
  | b, e :: es =>
      let s := uiStep b e
      let rest := uiRun s.1 es
      (rest.1, (if s.2 then 1 else 0) + rest.2)

/-- `action.result?.data` (ChatInterface.tsx lines 62, 82). -/
def actionData (a : AgentAction) : Option Json :=
  match a.result with
  | some r => Json.getField r "data"
  | none => none

/-- Truthiness of `action.result?.data`, as used by the `find`
predicates. -/
def hasTruthyData (a : AgentAction) : Bool :=
  match actionData a with
  | some d => truthy d
  | none => false

/-- The Result-tab search for the first sql_agent / rag_agent action with
truthy result data (ChatInterface.tsx lines 81-84). -/
def findDataAction : List AgentAction → Option AgentAction
  | [] => none
  | a :: rest =>
      if (a.tool_name = "sql_agent" ∨ a.tool_name = "rag_agent") ∧
         hasTruthyData a = true then some a
      else findDataAction rest

/-- The data actually rendered by the Result-tab preview (ChatInterface.tsx
lines 85-91): an array of more than 10 elements is cut to its first 10;
anything else is shown as is. -/
def previewShown (d : Json) : Json :=
  match d with
  | Json.arr xs => if xs.length > 10 then Json.arr (xs.take 10) else Json.arr xs
  | other => other

/-- The full length reported by the preview label (ChatInterface.tsx line
96): present exactly when the data is an array of more than 10
elements. -/
def previewLabelCount (d : Json) : Option Nat :=
  match d with
  | Json.arr xs => if xs.length > 10 then some xs.length else none
  | _ => none

/-- The whole Result-tab data preview: the first sql/rag action with
truthy data is chosen and its data truncated for display. -/
def resultTabPreview (acts : List AgentAction) : Option (Json × Option Nat) :=
  match findDataAction acts with
  | some a =>
      match actionData a with
      | some d => some (previewShown d, previewLabelCount d)
      | none => none
  | none => none

/-- Modelled from the spec: the error taxonomy of §7.  The backend code
carrying it is not in the repository snapshot. -/
inductive ErrorKind where
  | InvalidArguments
  | UnknownCapability
  | Timeout
  | ReasoningUnparseable
  | ProviderUnavailable
  | PoolExhausted
  | CapabilityFailure

/-- Modelled from the spec: a Capability descriptor (§3, §4.2) — name,
argument schema (expected argument names) and invocation function.  The
Capability Registry code is not in the repository snapshot. -/
structure Capability where
  name : String
  schema : List String
  invoke : List (String × Json) → Bool × Json

/-- Lookup of a tool name in the capability catalog. -/
def findCap : List Capability → String → Option Capability
  | [], _ => none
  | c :: rest, n => if c.name = n then some c else findCap rest n

/-- Modelled from the spec: the Action record produced by every dispatch
(§3, §4.2). -/
structure DispatchAction where
  toolName : String
  args : List (String × Json)
  success : Bool
  result : Json
  errorDetail : Option ErrorKind

/-- Argument validation against the declared schema (§4.2): every schema
name is supplied and no extra argument is passed. -/
def validArgs (schema : List String) (args : List (String × Json)) : Bool :=
  schema.all (fun k => (lookupField args k).isSome) &&
  args.all (fun p => schema.contains p.1)

/-- Modelled from the spec: `dispatch(toolName, arguments) -> Action`
(§4.2).  The Dispatcher code is not in the repository snapshot.  Dispatch
fails closed: an unknown tool name yields a failed Action with
`UnknownCapability` without touching any capability's `invoke`; an
argument mismatch yields `InvalidArguments` without invoking; otherwise
the capability is invoked and its outcome normalized.  The function is
total, so no fault ever escapes the Dispatcher boundary. -/
def dispatch (registry : List Capability) (toolName : String)
    (args : List (String × Json)) : DispatchAction :=
  match findCap registry toolName with
  | none => ⟨toolName, args, false, Json.null, some ErrorKind.UnknownCapability⟩
  | some c =>
      if validArgs c.schema args then
        let r := c.invoke args
        ⟨toolName, args, r.1, r.2,
         if r.1 then none else some ErrorKind.CapabilityFailure⟩
      else ⟨toolName, args, false, Json.null, some ErrorKind.InvalidArguments⟩

/-- Modelled from the spec: a Decision (§3) — the reasoning service either
picks a tool with arguments or finishes with an answer. -/
inductive Decision where
  | invoke (toolName : String) (args : List (String × Json))
  | finish (answer : String)

/-- Modelled from the spec: the resolved outcome of one Reasoning phase
(§4.3).  The single corrective re-ask after a malformed reply is internal
to the phase, so `unparseable` stands for two consecutive parse failures;
`poolExhausted` is the credential pool failing to produce a credential. -/
inductive PhaseResult where
  | decided (d : Decision)
  | unparseable
  | poolExhausted

/-- Modelled from the spec: how a Turn ends (§4.3) — `Finished` with an
answer and the truncation flag, or `Aborted` with an error kind. -/
inductive TurnOutcome where
  | finished (answer : String) (truncated : Bool)
  | aborted (kind : ErrorKind)

/-- Modelled from the spec: the result of one Decision Engine run — the
outcome, the ordered Action trace and the number of Reasoning phases
performed. -/
structure TurnResult where
  outcome : TurnOutcome
  trace : List DispatchAction
  reasoningCalls : Nat

/-- Modelled from the spec: the ReAct loop of the Decision Engine (§4.3).
The Decision Engine code is not in the repository snapshot.  `reason k`
is the resolved outcome of the k-th Reasoning phase, `registry` the
capability catalog, `synth` the best-effort answer synthesized from the
collected Action results when the cap forces truncation.  `remaining`
counts the Acting steps still allowed: reaching the cap while still in
Reasoning forces `finished _ true`; `poolExhausted` aborts with
`ProviderUnavailable`; a doubly-unparseable reply aborts with
`ReasoningUnparseable`; otherwise the Decision is executed through the
Dispatcher and its Action appended to the trace.  The recursion is
structural in `remaining`, so the loop terminates for every behavior of
the reasoning service. -/
def runReact (reason : Nat → PhaseResult) (registry : List Capability)
    (synth : List DispatchAction → String) :
    Nat → Nat → List DispatchAction → TurnResult
  | 0, calls, trace =>
      ⟨TurnOutcome.finished (synth trace) true, trace, calls⟩
  | remaining + 1, calls, trace =>
      match reason calls with
      | PhaseResult.poolExhausted =>
          ⟨TurnOutcome.aborted ErrorKind.ProviderUnavailable, trace, calls + 1⟩
      | PhaseResult.unparseable =>
          ⟨TurnOutcome.aborted ErrorKind.ReasoningUnparseable, trace, calls + 1⟩
      | PhaseResult.decided (Decision.finish ans) =>
          ⟨TurnOutcome.finished ans false, trace, calls + 1⟩
      | PhaseResult.decided (Decision.invoke t a) =>
          runReact reason registry synth remaining (calls + 1)
            (trace ++ [dispatch registry t a])

/-- Modelled from the spec: one Decision Engine run for a Turn, starting
in Reasoning with an empty trace and the configured cap of Acting
steps. -/
def runTurn (reason : Nat → PhaseResult) (registry : List Capability)
    (synth : List DispatchAction → String) (cap : Nat) : TurnResult :=
  runReact reason registry synth cap 0 []

/-- C2: for every call to the orchestrator query entry point, the
serialized request body carries the query text, a conversation identifier
and a user identifier, and every `OrchestratorResponse` carries a success
flag, a final answer, the ordered action list and the conversation
identifier. -/
theorem facade_entry_contract (r : QueryRequest) (o : OrchestratorResponse) :
    lookupField (queryBody r) "query" = some (Json.str r.query) ∧
    lookupField (queryBody r) "conversation_id" =
      some (Json.str (orDefault r.conversation_id "default")) ∧
    lookupField (queryBody r) "user_id" =
      some (Json.str (orDefault r.user_id "anonymous")) ∧
    facadeResult o = (o.success, o.response.final_answer,
      o.response.actions_taken, o.conversation_id) :=
  ⟨rfl, rfl, rfl, rfl⟩

/-- C8 counterexample: a caller-supplied but falsy `context` (here the
value `false`) is dropped from the serialized body, so "a context field
is present in the body if and only if the caller supplied one" fails as
stated. -/
theorem queryBody_context_dropped :
    (QueryRequest.mk "q" none none (some (Json.bool false))).context.isSome
      = true ∧
    lookupField (queryBody (QueryRequest.mk "q" none none
      (some (Json.bool false)))) "context" = none :=
  ⟨rfl, rfl⟩

/-- C8 (amended): the serialized body always contains `conversation_id`
and `user_id`; an omitted (or empty) identifier becomes "default" /
"anonymous"; a `context` field is present exactly when the caller
supplied a truthy context value. -/
theorem queryBody_fields (r : QueryRequest) :
    lookupField (queryBody r) "conversation_id" =
      some (Json.str (orDefault r.conversation_id "default")) ∧
    lookupField (queryBody r) "user_id" =
      some (Json.str (orDefault r.user_id "anonymous")) ∧
    orDefault none "default" = "default" ∧
    orDefault none "anonymous" = "anonymous" ∧
    lookupField (queryBody r) "context" =
      (match r.context with
       | some c => if truthy c then some c else none
       | none => none) := by
  refine ⟨rfl, rfl, rfl, rfl, ?_⟩
  rcases r with ⟨q, cid, uid, ctx⟩
  cases ctx with
  | none => rfl
  | some c =>
      cases htc : truthy c with
      | true =>
          simp only [queryBody, htc, if_true]
          rfl
      | false =>
          simp only [queryBody, htc, if_false]
          rfl

/-- C9 counterexample: a body whose `message` field is present but falsy
(the empty string) does not supply the ApiError message; the generic
fallback text is used instead, so "using the body's message field when
present" fails as stated. -/
theorem apiRequest_blank_message :
    Json.getField (Json.obj [("message", Json.str "")]) "message" =
      some (Json.str "") ∧
    apiRequest (FetchOutcome.replied false 500
        (Json.obj [("message", Json.str "")])) =
      Except.error ⟨Json.str "HTTP error! status: 500", some 500,
        some (Json.obj [("message", Json.str "")])⟩ ∧
    Json.str "HTTP error! status: 500" ≠ Json.str "" := by
  refine ⟨rfl, rfl, fun h => ?_⟩
  injection h with h2
  exact absurd h2 (by decide)

/-- C9 (amended): every failure of `apiRequest` surfaces as an `ApiError`
and nothing else — a non-ok response yields an `ApiError` carrying the
status and parsed body, with the body's `message` field used when it is
present and truthy (otherwise the generic HTTP text); the `ApiError`
thrown inside the try-block is rethrown unchanged; any network or
JSON-parse error is wrapped into an `ApiError` built from its message. -/
theorem apiRequest_error_channel (status : Nat) (body : Json)
    (m : Option String) :
    apiRequest (FetchOutcome.replied false status body) =
      Except.error ⟨httpErrorMessage status body, some status, some body⟩ ∧
    apiRequestTry (FetchOutcome.replied false status body) =
      TryResult.threwApiError
        ⟨httpErrorMessage status body, some status, some body⟩ ∧
    apiRequest (FetchOutcome.replied true status body) = Except.ok body ∧
    apiRequest (FetchOutcome.fetchThrew m) =
      Except.error ⟨Json.str (m.getD "Unknown error occurred"), none, none⟩ ∧
    apiRequest (FetchOutcome.jsonThrew m) =
      Except.error ⟨Json.str (m.getD "Unknown error occurred"), none, none⟩ :=
  ⟨rfl, rfl, rfl, rfl, rfl⟩

/-- The backend error body of the C1 counterexample: an aborted Turn with
an error kind and a non-empty partial action trace. -/
def abortedBackendBody : Json :=
  Json.obj [("success", Json.bool false),
            ("error", Json.str "ProviderUnavailable"),
            ("actions_taken",
             Json.arr [Json.obj [("tool_name", Json.str "sql_agent"),
                                 ("success", Json.bool false)]])]

/-- C1 counterexample: the backend's failure body carries an action trace,
but the route's failure payload is rebuilt from scratch and has no
`actions_taken` field — the trace is dropped on failure. -/
theorem route_drops_trace_on_error :
    Json.getField abortedBackendBody "actions_taken" =
      some (Json.arr [Json.obj [("tool_name", Json.str "sql_agent"),
                                ("success", Json.bool false)]]) ∧
    (routePOST (RouteOutcome.replied false 503 abortedBackendBody) "ts").2 =
      Json.obj [("success", Json.bool false),
                ("error", Json.str "ProviderUnavailable"),
                ("status", Json.num 503)] ∧
    Json.getField
      ((routePOST (RouteOutcome.replied false 503 abortedBackendBody) "ts").2)
      "actions_taken" = none :=
  ⟨rfl, rfl, rfl⟩

/-- C1 (amended): the query route forwards a successful backend payload
unchanged (so a trace the backend includes is preserved), but each of its
failure payloads consists only of a success flag, an error text and the
backend status (or a timestamp for internal errors) — no failure payload
ever contains an action trace. -/
theorem routePOST_payloads (status : Nat) (body : Json) (pm ts : String)
    (m : Option String) :
    routePOST (RouteOutcome.replied true status body) ts = (200, body) ∧
    routePOST (RouteOutcome.replied false status body) ts =
      (status, routeFailureBody status (routeErrorField body status)) ∧
    Json.getField (routeFailureBody status (routeErrorField body status))
      "actions_taken" = none ∧
    Json.getField (routeCatchBody pm ts) "actions_taken" = none ∧
    routePOST (RouteOutcome.threw m) ts =
      (500, routeCatchBody (m.getD "Internal server error") ts) ∧
    routePOST (RouteOutcome.repliedBadJson false status pm) ts =
      (status, routeFailureBody status (Json.str "Unknown error")) ∧
    routePOST (RouteOutcome.repliedBadJson true status pm) ts =
      (500, routeCatchBody pm ts) :=
  ⟨rfl, rfl, rfl, rfl, rfl, rfl, rfl⟩

/-- C10: the Result-tab data preview of an array of more than 10 elements
shows exactly its first 10 elements in their original order and its label
reports the full length; arrays of at most 10 elements are shown in full
with no length label. -/
theorem dataPreview_firstTen (xs : List Json) :
    previewShown (Json.arr xs) =
      Json.arr (if xs.length > 10 then xs.take 10 else xs) ∧
    previewLabelCount (Json.arr xs) =
      (if xs.length > 10 then some xs.length else none) ∧
    ∀ i : Nat, (xs.take 10)[i]? = if i < 10 then xs[i]? else none := by
  refine ⟨?_, rfl, ?_⟩
  · by_cases h : xs.length > 10
    · simp [previewShown, h]
    · simp [previewShown, h]
  · intro i
    by_cases h : i < 10
    · rw [if_pos h]
      exact List.getElem?_take_of_lt h
    · rw [if_neg h]
      have h10 : (10 : Nat) ≤ i := Nat.le_of_not_lt h
      have hlen : (xs.take 10).length ≤ i :=
        le_trans (List.length_take_le 10 xs) h10
      exact List.getElem?_eq_none hlen

/-- Bounds for one Decision Engine run: starting with `remaining` allowed
Acting steps, the run performs at most `remaining` further Reasoning
phases and appends at most `remaining` further Actions. -/
theorem runReact_bounds (reason : Nat → PhaseResult)
    (registry : List Capability) (synth : List DispatchAction → String) :
    ∀ remaining calls trace,
      (runReact reason registry synth remaining calls trace).reasoningCalls ≤
        calls + remaining ∧
      (runReact reason registry synth remaining calls trace).trace.length ≤
        trace.length + remaining := by
  intro remaining
  induction remaining with
  | zero =>
      intro calls trace
      exact ⟨Nat.le_add_right _ _, Nat.le_add_right _ _⟩
  | succ n ih =>
      intro calls trace
      cases hr : reason calls with
      | poolExhausted =>
          have heq : runReact reason registry synth (n + 1) calls trace =
              ⟨TurnOutcome.aborted ErrorKind.ProviderUnavailable, trace,
               calls + 1⟩ := by
            simp [runReact, hr]
          rw [heq]
          refine ⟨?_, ?_⟩
          · show calls + 1 ≤ calls + (n + 1)
            omega
          · show trace.length ≤ trace.length + (n + 1)
            omega
      | unparseable =>
          have heq : runReact reason registry synth (n + 1) calls trace =
              ⟨TurnOutcome.aborted ErrorKind.ReasoningUnparseable, trace,
               calls + 1⟩ := by
            simp [runReact, hr]
          rw [heq]
          refine ⟨?_, ?_⟩
          · show calls + 1 ≤ calls + (n + 1)
            omega
          · show trace.length ≤ trace.length + (n + 1)
            omega
      | decided d =>
          cases d with
          | finish ans =>
              have heq : runReact reason registry synth (n + 1) calls trace =
                  ⟨TurnOutcome.finished ans false, trace, calls + 1⟩ := by
                simp [runReact, hr]
              rw [heq]
              refine ⟨?_, ?_⟩
              · show calls + 1 ≤ calls + (n + 1)
                omega
              · show trace.length ≤ trace.length + (n + 1)
                omega
          | invoke t a =>
              have heq : runReact reason registry synth (n + 1) calls trace =
                  runReact reason registry synth n (calls + 1)
                    (trace ++ [dispatch registry t a]) := by
                simp [runReact, hr]
              have hb := ih (calls + 1) (trace ++ [dispatch registry t a])
              rw [heq]
              refine ⟨hb.1.trans (by omega), ?_⟩
              have h2 := hb.2
              simp only [List.length_append, List.length_cons,
                List.length_nil] at h2
              omega

/-- C3: for every behavior of the reasoning service (every `reason`
oracle), the Decision Engine run for a Turn performs at most the
configured cap of Acting steps and at most cap + 1 Reasoning phases, and
reaching the cap while still in Reasoning forces a `finished` outcome
with the truncated flag and a best-effort answer synthesized from the
collected Actions — the loop can never run forever. -/
theorem decisionEngine_terminates (reason : Nat → PhaseResult)
    (registry : List Capability) (synth : List DispatchAction → String)
    (cap : Nat) :
    (runTurn reason registry synth cap).reasoningCalls ≤ cap + 1 ∧
    (runTurn reason registry synth cap).trace.length ≤ cap ∧
    (∀ calls trace, runReact reason registry synth 0 calls trace =
      ⟨TurnOutcome.finished (synth trace) true, trace, calls⟩) := by
  have hb := runReact_bounds reason registry synth cap 0 []
  refine ⟨hb.1.trans (by omega), ?_, fun calls trace => rfl⟩
  have h2 := hb.2
  simpa using h2

/-- C4: dispatching a tool name absent from the capability catalog, with
any argument mapping, returns the failed Action with the
`UnknownCapability` error detail.  The result is a constant that does not
mention any capability's `invoke` function, so no collaborator is
invoked, and `dispatch` is a total function, so nothing is raised past
the Dispatcher boundary. -/
theorem dispatch_unknown_failsClosed (registry : List Capability)
    (toolName : String) (args : List (String × Json))
    (h : findCap registry toolName = none) :
    dispatch registry toolName args =
      ⟨toolName, args, false, Json.null, some ErrorKind.UnknownCapability⟩ := by
  simp [dispatch, h]

/-- Witness for C4: a concrete catalog holding only `sql_agent` and a
dispatch of an unknown tool name. -/
theorem dispatch_unknown_failsClosed_witness :
    dispatch [⟨"sql_agent", ["question"], fun _ => (true, Json.null)⟩]
        "unknown_tool" [("x", Json.num 1)] =
      ⟨"unknown_tool", [("x", Json.num 1)], false, Json.null,
        some ErrorKind.UnknownCapability⟩ :=
  dispatch_unknown_failsClosed _ _ _ rfl

/-- C5: every send appends the user message and then exactly one
assistant (or error) message at the end of the list — each successive
state of the `messages` list extends the previous one, and the initial
messages survive unmodified, in order, as a prefix of every later
state. -/
theorem handleSendMessage_appendOnly (parseErr : String → String)
    (msgs : List ChatMessage) (content : String) (outcome : SendOutcome)
    (now : Nat) :
    ∃ second : ChatMessage,
      second.role = "assistant" ∧
      (mkUserMessage content now).role = "user" ∧
      (mkUserMessage content now).content = content ∧
      handleSendMessage parseErr msgs content outcome now =
        [msgs, msgs ++ [mkUserMessage content now],
         msgs ++ [mkUserMessage content now, second]] := by
  cases outcome with
  | success r =>
      exact ⟨mkAssistantMessage r now, rfl, rfl, rfl, rfl⟩
  | failure apiMsg =>
      refine ⟨mkErrorMessage parseErr apiMsg now, rfl, rfl, rfl, ?_⟩
      simp [handleSendMessage]

/-- C6: a completed query creates or overwrites exactly the record under
the current conversation id (so the first completed query under a fresh
id creates it, later ones only update it) and touches no other record; a
failed send, selecting a conversation and starting a new conversation
never remove any record; selecting an id that has no record leaves the
current conversation id and the message list unchanged. -/
theorem conversation_lifecycle (s : AppState) (content : String)
    (r : OrchestratorResponse) (now : Nat) (ts : String)
    (parseErr : String → String) (apiMsg : Option String)
    (sel newId : String) (hsel : s.conversations sel = none) :
    (sendSuccessState s content r now ts).conversations
        s.currentConversationId =
      some ⟨s.currentConversationId, conversationTitle content,
            s.messages ++ [mkUserMessage content now,
                           mkAssistantMessage r now],
            ts, "orchestrator"⟩ ∧
    (∀ k, k ≠ s.currentConversationId →
      (sendSuccessState s content r now ts).conversations k =
        s.conversations k) ∧
    (sendFailureState parseErr s content apiMsg now).conversations =
      s.conversations ∧
    (handleSelectConversation s sel).currentConversationId =
      s.currentConversationId ∧
    (handleSelectConversation s sel).messages = s.messages ∧
    (∀ i, (handleSelectConversation s i).conversations = s.conversations) ∧
    (handleNewConversation s newId).conversations = s.conversations := by
  refine ⟨?_, ?_, rfl, ?_, ?_, ?_, rfl⟩
  · simp [sendSuccessState]
  · intro k hk
    simp [sendSuccessState, hk]
  · simp [handleSelectConversation, hsel]
  · simp [handleSelectConversation, hsel]
  · intro i
    cases hi : s.conversations i with
    | none => simp [handleSelectConversation, hi]
    | some conv => simp [handleSelectConversation, hi]

/-- A concrete orchestrator response for the C6 witness. -/
def demoResponse : OrchestratorResponse :=
  ⟨true, "q", none, ⟨"ans", none, [], [], none, none⟩, none, "c1", "u1"⟩

/-- A concrete client state with no conversation records yet. -/
def demoAppState : AppState := ⟨[], "c1", fun _ => none⟩

/-- Witness for C6: on the empty state, a completed query under the fresh
id "c1" creates its record. -/
theorem conversation_lifecycle_witness :
    (sendSuccessState demoAppState "hi" demoResponse 0 "t").conversations
        "c1" =
      some ⟨"c1", conversationTitle "hi",
            [] ++ [mkUserMessage "hi" 0, mkAssistantMessage demoResponse 0],
            "t", "orchestrator"⟩ :=
  (conversation_lifecycle demoAppState "hi" demoResponse 0 "t"
    id none "missing" "c2" rfl).1

/-- The submit guard rejects every message while a query is loading. -/
theorem chatInput_guard_loading (m : String) :
    chatInputSubmit m true = none := by
  simp [chatInputSubmit]

/-- No run of UI events ever starts a query while another is in
flight. -/
theorem uiRun_noOverlap : ∀ (evs : List UiEvent) (b : Bool),
    (uiRun b evs).2 = 0 := by
  intro evs
  induction evs with
  | nil => intro b; rfl
  | cons e es ih =>
      intro b
      cases e with
      | complete => simp [uiRun, uiStep, ih]
      | submit m =>
          cases b with
          | false =>
              by_cases hc : (chatInputSubmit m false).isSome
              · simp [uiRun, uiStep, hc, ih]
              · simp [uiRun, uiStep, hc, ih]
          | true =>
              simp [uiRun, uiStep, chatInputSubmit, ih]

/-- C7: while a query is loading the input form never submits (submission
requires a non-empty trimmed message and the not-loading flag), so along
every sequence of submissions and completions starting idle, no second
query ever starts before the previous one has completed. -/
theorem singleQueryInFlight (evs : List UiEvent) :
    (∀ m, chatInputSubmit m true = none) ∧
    (uiRun false evs).2 = 0 :=
  ⟨chatInput_guard_loading, uiRun_noOverlap evs false⟩
